import Mathlib

/-!
Verification of the pow HTTP framework core (src/unnamed/part_000, part_001).

The repository holds two variants of the `App` class:
* the fuller variant (part_001, first module): request facade with a lazy
  `body()` accessor, a body decoder `App.parse`, an `HTTPError` class and a
  204-on-empty pipeline;
* the minimal variant (part_001, second module): no body decoding, silent
  termination on empty handler results.

We shallowly embed both: the body decoder as a pure function over a classified
content type and an accumulated buffer (the external `JSON.parse` and
`querystring.parse` collaborators are parameters, with small executable models
used for concrete evaluations), and the per-request dispatch pipeline as a
function from the handler's observable behaviour (a list of guard-mutating
actions followed by a resolution outcome) to the final response-guard state,
which records every wire write.
-/

namespace Pow

/-! ## A small executable model of the external `JSON.parse` collaborator -/

/-- JSON values produced by the `JSON.parse` model. -/
inductive JsonV where
  | null
  | bool (b : Bool)
  | num (n : Int)
  | str (s : String)
  | arr (elems : List JsonV)
  | obj (fields : List (String × JsonV))

def quoteChar : Char := Char.ofNat 34

def backslashChar : Char := Char.ofNat 92

def lbraceChar : Char := Char.ofNat 123

def rbraceChar : Char := Char.ofNat 125

def isJsonWs (c : Char) : Bool :=
  c = ' ' || c = '\n' || c = '\t' || c = '\r'

def skipJsonWs : List Char → List Char
  | [] => []
  | c :: cs => if isJsonWs c then skipJsonWs cs else c :: cs

def takeDigits : List Char → List Char × List Char
  | [] => ([], [])
  | c :: cs =>
    if c.isDigit then
      let p := takeDigits cs
      (c :: p.1, p.2)
    else ([], c :: cs)

def digitsToNat (ds : List Char) : Nat :=
  ds.foldl (fun a c => a * 10 + (c.toNat - 48)) 0

/-- String-literal body: input is positioned just after the opening quote. -/
def parseJsonStrBody (fuel : Nat) (acc : List Char) (input : List Char) :
    Except String (String × List Char) :=
  match fuel with
  | 0 => .error "model out of fuel"
  | fuel + 1 =>
    match input with
    | [] => .error "Unterminated string in JSON"
    | c :: cs =>
      if c = quoteChar then .ok (String.mk acc.reverse, cs)
      else if c = backslashChar then
        match cs with
        | [] => .error "Unterminated string in JSON"
        | e :: cs2 =>
          let decoded : Char :=
            if e = 'n' then '\n'
            else if e = 't' then '\t'
            else if e = 'r' then '\r'
            else e
          parseJsonStrBody fuel (decoded :: acc) cs2
      else parseJsonStrBody fuel (c :: acc) cs

/-- Parsing mode: a single value, the tail of an array, or the tail of an
object, so the whole recursive-descent parser is one function structurally
recursive on its fuel. -/
inductive JMode where
  | value
  | elems
  | members

def parseJ (fuel : Nat) (mode : JMode) (input : List Char) :
    Except String (JsonV × List Char) :=
  match fuel with
  | 0 => .error "model out of fuel"
  | fuel + 1 =>
    match mode with
    | .value =>
      match skipJsonWs input with
      | [] => .error "Unexpected end of JSON input"
      | c :: cs =>
        if c = 'n' then
          match cs with
          | 'u' :: 'l' :: 'l' :: rest => .ok (.null, rest)
          | _ => .error "Unexpected token in JSON"
        else if c = 't' then
          match cs with
          | 'r' :: 'u' :: 'e' :: rest => .ok (.bool true, rest)
          | _ => .error "Unexpected token in JSON"
        else if c = 'f' then
          match cs with
          | 'a' :: 'l' :: 's' :: 'e' :: rest => .ok (.bool false, rest)
          | _ => .error "Unexpected token in JSON"
        else if c = quoteChar then
          match parseJsonStrBody fuel [] cs with
          | .ok (s, rest) => .ok (.str s, rest)
          | .error e => .error e
        else if c = '[' then
          match skipJsonWs cs with
          | ']' :: rest => .ok (.arr [], rest)
          | rest => parseJ fuel .elems rest
        else if c = lbraceChar then
          match skipJsonWs cs with
          | r :: rest =>
            if r = rbraceChar then .ok (.obj [], rest)
            else parseJ fuel .members (r :: rest)
          | [] => .error "Unexpected end of JSON input"
        else if c = '-' then
          match takeDigits cs with
          | ([], _) => .error "Unexpected token in JSON"
          | (ds, rest) => .ok (.num (-(digitsToNat ds : Int)), rest)
        else if c.isDigit then
          match takeDigits (c :: cs) with
          | (ds, rest) => .ok (.num (digitsToNat ds : Int), rest)
        else .error "Unexpected token in JSON"
    | .elems =>
      match parseJ fuel .value input with
      | .error e => .error e
      | .ok (v, rest) =>
        match skipJsonWs rest with
        | ',' :: rest2 =>
          match parseJ fuel .elems rest2 with
          | .ok (.arr vs, rest3) => .ok (.arr (v :: vs), rest3)
          | .ok _ => .error "model internal"
          | .error e => .error e
        | ']' :: rest2 => .ok (.arr [v], rest2)
        | _ => .error "Unexpected token in JSON"
    | .members =>
      match skipJsonWs input with
      | c :: cs =>
        if c = quoteChar then
          match parseJsonStrBody fuel [] cs with
          | .error e => .error e
          | .ok (k, rest) =>
            match skipJsonWs rest with
            | ':' :: rest2 =>
              match parseJ fuel .value rest2 with
              | .error e => .error e
              | .ok (v, rest3) =>
                match skipJsonWs rest3 with
                | ',' :: rest4 =>
                  match parseJ fuel .members rest4 with
                  | .ok (.obj kvs, rest5) => .ok (.obj ((k, v) :: kvs), rest5)
                  | .ok _ => .error "model internal"
                  | .error e => .error e
                | r :: rest4 =>
                  if r = rbraceChar then .ok (.obj [(k, v)], rest4)
                  else .error "Unexpected token in JSON"
                | [] => .error "Unexpected end of JSON input"
            | _ => .error "Unexpected token in JSON"
        else .error "Unexpected token in JSON"
      | [] => .error "Unexpected end of JSON input"

/-- Model of the external `JSON.parse`: `.error` plays the thrown
`SyntaxError`. -/
def jsonParseModel (s : String) : Except String JsonV :=
  match parseJ (2 * s.length + 2) .value s.data with
  | .error e => .error e
  | .ok (v, rest) =>
    if skipJsonWs rest = [] then .ok v
    else .error "Unexpected token in JSON"

/-! ## A small executable model of the external `querystring.parse` -/

def splitOnChar (sep : Char) : List Char → List (List Char)
  | [] => [[]]
  | c :: cs =>
    let rest := splitOnChar sep cs
    if c = sep then [] :: rest
    else
      match rest with
      | [] => [[c]]
      | p :: ps => (c :: p) :: ps

def joinWith (sep : Char) : List (List Char) → List Char
  | [] => []
  | [p] => p
  | p :: ps => p ++ sep :: joinWith sep ps

/-- Model of the external `querystring.parse`: pairs split on `&`, a key with
no `=` maps to the empty string. -/
def qsModel (s : String) : List (String × String) :=
  if s = "" then []
  else (splitOnChar '&' s.data).map fun kv =>
    match splitOnChar '=' kv with
    | [] => (String.mk kv, "")
    | [k] => (String.mk k, "")
    | k :: vs => (String.mk k, String.mk (joinWith '=' vs))

def isError {α : Type} : Except String α → Bool
  | .error _ => true
  | .ok _ => false

/-! ## Body decoder (`App.parse`, fuller variant, part_001 lines 230-272)

`contentTypeParser` (external) yields `null` or a `\x7btype, subtype\x7d`
record; we take its output as an `Option ContentType` argument.  The two
decoding collaborators `JSON.parse` and `querystring.parse` are external, so
`App.parse` takes them as function arguments.

The JavaScript `switch` on `contentType.type` has no `break` between its outer
cases: control entering at `case 'text':` whose inner `switch` does not
`return` falls through into the body of `case 'application':`, and likewise
from `'application'` into `'multipart'` and `default`.  Only a `return`
statement leaves the outer `switch` early; code that falls off its end reaches
the final `throw` naming `type/subtype`.  The embedding mirrors exactly that
control flow. -/

structure ContentType where
  type : String
  subtype : String
deriving Repr, DecidableEq

/-- The decoded body: text, a parsed JSON value, or a parsed form.  `J` and
`F` are whatever the external JSON and querystring collaborators produce. -/
inductive Decoded (J F : Type) where
  | text (s : String)
  | json (v : J)
  | form (f : F)

/-- Embedding of `App.parse(contentType, buffer)`.  `.error` is a thrown `Error` carrying
the message; `.ok none` is a `return;` with no value (`undefined`). -/
def App.parse {J F : Type} (jsonParse : String → Except String J)
    (qsParse : String → F) (contentType : Option ContentType) (buffer : String) :
    Except String (Option (Decoded J F)) :=
  match contentType with
  | none => .error "Invalid content-type \"null\"."
  | some ct =>
    -- thrown after falling off the end of the outer switch
    let throwInvalid : Except String (Option (Decoded J F)) :=
      .error ("Invalid content-type \"" ++ ct.type ++ "/" ++ ct.subtype ++ "\".")
    -- body of `case 'application':`, also reached from `case 'text':` by
    -- fallthrough; its inner `break`s fall further through `'multipart'` and
    -- `default`, off the end of the switch, to the final throw
    let applicationCase : Except String (Option (Decoded J F)) :=
      if ct.subtype = "json" then
        match jsonParse buffer with
        | .ok v => .ok (some (.json v))
        | .error _ => .ok none  -- caught: dev-mode warning, then `return;`
      else if ct.subtype = "x-www-form-urlencoded" then
        .ok (some (.form (qsParse buffer)))
      else throwInvalid  -- javascript, xml, and every other subtype
    if ct.type = "text" then
      if ct.subtype = "plain" then .ok (some (.text buffer))
      else if ct.subtype = "html" then .ok (some (.text buffer))
      else applicationCase  -- no break after the inner switch: falls through
    else if ct.type = "application" then applicationCase
    else throwInvalid  -- `'multipart'` and `default` bodies never return

/-- The `body()` accessor (part_001 lines 123-137): chunks are concatenated in
arrival order; on the last chunk the decoder runs once, its return value
resolves the promise and anything it throws rejects it. -/
def bodyOutcome {J F : Type} (jsonParse : String → Except String J)
    (qsParse : String → F) (contentType : Option ContentType)
    (chunks : List String) : Except String (Option (Decoded J F)) :=
  App.parse jsonParse qsParse contentType (String.join chunks)

/-! ## JavaScript values, errors, and the response guard -/

/-- Errors a handler can throw or return: the framework's `HTTPError` class
(part_001 lines 33-37) or a generic error with the optional fields the error
path reads (`status`, `code`, `reason`, `message`).  Field values are modelled
as already-numeric where `parseInt` succeeds on them. -/
inductive JsError where
  | http (code : Int) (message : String)
  | generic (status : Option Int) (code : Option Int) (reason : Option String)
      (message : String)
deriving Repr, DecidableEq

/-- The JavaScript values a handler can resolve with or pass to
`response.send`.  `obj stringifyResult` models a non-primitive object:
`stringifyResult = none` means `JSON.stringify` throws on it (circular
structure / BigInt), otherwise it is the serialized text. -/
inductive JsVal where
  | undef
  | null
  | bool (b : Bool)
  | num (n : Int)
  | str (s : String)
  | obj (stringifyResult : Option String)
  | err (e : JsError)
deriving Repr, DecidableEq

/-- JavaScript falsiness, as tested by `if (!body)`. -/
def JsVal.falsy : JsVal → Bool
  | .undef => true
  | .null => true
  | .bool b => !b
  | .num n => n == 0
  | .str s => s == ""
  | .obj _ => false
  | .err _ => false

/-- Model of `JSON.stringify` as applied by `send`: `none` means it throws.
`stringify(undefined)` is `undefined`, and `res.end(undefined)` ends the
response with an empty body, so `undef` maps to the empty string. -/
def jsonStringify : JsVal → Option String
  | .undef => some ""
  | .null => some "null"
  | .bool b => some (cond b "true" "false")
  | .num n => some (toString n)
  | .str s => some ("\x22" ++ s ++ "\x22")
  | .obj r => r
  | .err _ => some "\x7b\x7d"

/-- One grouped (corked) write to the transport: the status line, the
`Content-Type` header if one was written, and the argument of `end`.
`body = none` records that `end` was never reached because an exception was
raised inside the grouped write. -/
structure Wire where
  status : String
  header : Option String
  body : Option String
deriving Repr, DecidableEq

/-- The per-request response guard (part_000): the four flags uWS
`HttpResponse` is augmented with, plus the writes that reached the wire. -/
structure ResState where
  aborted : Bool
  done : Bool
  calledNext : Bool
  calledSend : Bool
  writes : List Wire
deriving Repr, DecidableEq

def ResState.init : ResState :=
  { aborted := false, done := false, calledNext := false, calledSend := false,
    writes := [] }

/-- Embedding of `response.send` of the fuller variant (part_001 lines 146-180). -/
def ResState.send (res : ResState) (body : JsVal) : ResState :=
  if res.aborted then res
  else if res.done then res
  else if res.calledNext then res
  else
    let res := { res with calledSend := true }
    match body with
    | .str s =>
      { res with done := true,
                 writes := res.writes ++ [⟨"200 OK", none, some s⟩] }
    | .num n =>
      { res with done := true,
                 writes := res.writes ++ [⟨"200 OK", none, some (toString n)⟩] }
    | b =>
      -- `isJSON(body)`: true exactly when `JSON.stringify` does not throw
      match jsonStringify b with
      | some j =>
        { res with done := true,
                   writes := res.writes ++
                     [⟨"200 OK", some "application/json", some j⟩] }
      | none => res

/-- Embedding of `response.send` of the minimal variant (part_001 lines 378-406).  The
returned `Bool` is true when the call throws: `JSON.stringify` raising inside
the corked write, after the status line and header went out but before `end`
ran. -/
def ResState.sendMin (res : ResState) (body : JsVal) : ResState × Bool :=
  if res.aborted then (res, false)
  else if res.done then (res, false)
  else if res.calledNext then (res, false)
  else
    let res := { res with calledSend := true }
    match body with
    | .str s =>
      ({ res with done := true,
                  writes := res.writes ++ [⟨"200 OK", none, some s⟩] }, false)
    | .null | .obj _ | .err _ =>
      -- `typeof body === 'object'`
      let res := { res with done := true }
      match jsonStringify body with
      | some j =>
        ({ res with writes := res.writes ++
             [⟨"200 OK", some "application/json", some j⟩] }, false)
      | none =>
        ({ res with writes := res.writes ++
             [⟨"200 OK", some "application/json", none⟩] }, true)
    | _ => (res, false)  -- numbers, booleans, undefined: neither branch

/-- JavaScript `a || b` on an optional string: empty and absent are falsy. -/
def jsOrElse (a : Option String) (b : String) : String :=
  match a with
  | some s => if s = "" then b else s
  | none => b

/-- The error text of the fuller variant's error path
(part_001 lines 210-221): used verbatim as status line and body. -/
def errorMessageFull : JsError → String
  | .http c m => toString c ++ " " ++ m
  | .generic st cd rs m =>
    let status := st.getD (cd.getD 500)
    let reason :=
      jsOrElse rs
        (if m = "" then (if status = 500 then "Internal Server Error" else "")
         else m)
    toString status ++ (if reason = "" then "" else " " ++ reason)

/-- The error text of the minimal variant's error path
(part_001 lines 435-439): only the `status` field is consulted, there is no
`HTTPError` branch (an `HTTPError` value has no `status` field, so it defaults
to 500). -/
def errorMessageMin (e : JsError) : String :=
  let st : Option Int := match e with
    | .http _ _ => none
    | .generic st _ _ _ => st
  let rs : Option String := match e with
    | .http _ _ => none
    | .generic _ _ rs _ => rs
  let m : String := match e with
    | .http _ m => m
    | .generic _ _ _ m => m
  let status := st.getD 500
  let reason :=
    jsOrElse rs
      (if m = "" then (if status = 500 then "Internal Server Error" else "")
       else m)
  toString status ++ (if reason = "" then "" else " " ++ reason)

/-- The `catch` block of the fuller variant (part_001 lines 200-222). -/
def ResState.errorPath (res : ResState) (e : JsError) : ResState :=
  if res.aborted then res
  else if res.done then res
  else if res.calledNext then res
  else
    let msg := errorMessageFull e
    { res with done := true, writes := res.writes ++ [⟨msg, none, some msg⟩] }

/-- The `catch` block of the minimal variant (part_001 lines 425-441). -/
def ResState.errorPathMin (res : ResState) (e : JsError) : ResState :=
  if res.aborted then res
  else if res.done then res
  else if res.calledNext then res
  else
    let msg := errorMessageMin e
    { res with done := true, writes := res.writes ++ [⟨msg, none, some msg⟩] }

/-! ## The dispatch pipeline

A handler's observable interaction with its request is a list of actions
performed while it runs (calling `response.send`, calling `next()`, and the
transport's abort listener firing at a suspension point) followed by how its
promise settles.  The pipeline model folds the actions over the guard state
and then runs the `try/catch` tail of `App.handle`. -/

inductive HAction where
  | send (v : JsVal)
  | callNext
  | abortFires
deriving Repr, DecidableEq

inductive HOutcome where
  | ret (v : JsVal)
  | throw (e : JsError)
deriving Repr, DecidableEq

def stepFull (s : ResState) (a : HAction) : ResState :=
  match a with
  | .send v => s.send v
  | .callNext => { s with calledNext := true }
  | .abortFires => { s with aborted := true }

def stepMin (s : ResState) (a : HAction) : ResState :=
  match a with
  | .send v => (s.sendMin v).1
  | .callNext => { s with calledNext := true }
  | .abortFires => { s with aborted := true }

/-- The error object `JSON.stringify` throws on a circular structure. -/
def stringifyThrowErr : JsError :=
  .generic none none none "Converting circular structure to JSON"

/-- The tail of the fuller variant's `App.handle` after the handler's promise
settles (part_001 lines 186-223): the empty-body 204 throw, the
returned-error throw, the automatic `response.send`, and the `catch`. -/
def runFullTail (s : ResState) (out : HOutcome) : ResState :=
  match out with
  | .throw e => s.errorPath e
  | .ret v =>
    if s.calledSend then s
    else if v.falsy then s.errorPath (.http 204 "No Content")
    else
      match v with
      | .err e => s.errorPath e
      | _ => s.send v

/-- One fuller-variant request from guard state `s`: the handler's actions,
then the settlement tail. -/
def runFullFrom (s : ResState) (acts : List HAction) (out : HOutcome) :
    ResState :=
  runFullTail (acts.foldl stepFull s) out

def runFull (acts : List HAction) (out : HOutcome) : ResState :=
  runFullFrom ResState.init acts out

/-- The tail of the minimal variant's `App.handle` after the handler's promise
settles (part_001 lines 411-441): silent return on an empty body, the
returned-error throw, the automatic `response.send` (whose stringify throw
lands in the `catch`), and the `catch`. -/
def runMinTail (s : ResState) (out : HOutcome) : ResState :=
  match out with
  | .throw e => s.errorPathMin e
  | .ret v =>
    if s.calledSend then s
    else if v.falsy then s
    else
      match v with
      | .err e => s.errorPathMin e
      | _ =>
        match s.sendMin v with
        | (s2, true) => s2.errorPathMin stringifyThrowErr
        | (s2, false) => s2

/-- One minimal-variant request from guard state `s`. -/
def runMinFrom (s : ResState) (acts : List HAction) (out : HOutcome) :
    ResState :=
  runMinTail (acts.foldl stepMin s) out

def runMin (acts : List HAction) (out : HOutcome) : ResState :=
  runMinFrom ResState.init acts out

/-! ## Route registration (both variants)

Registration is a pass-through to the transport's per-method table; what the
claims need is the registered route and each method's JavaScript return value.
`some app` models `return this`; `none` models returning `undefined`. -/

inductive Method where
  | any | get | post | put | patch | del | options | connect | head
deriving Repr, DecidableEq

/-- The fuller variant's `App` (its route table), over an abstract handler
type. -/
structure AppF (H : Type) where
  routes : List (Method × String × H)

/-- Fuller `App.handle` (part_001 lines 107-228): registers and
`return this`. -/
def AppF.handle {H : Type} (app : AppF H) (m : Method) (path : String)
    (h : H) : AppF H × Option (AppF H) :=
  let app2 : AppF H := { routes := app.routes ++ [(m, path, h)] }
  (app2, some app2)

def AppF.use {H : Type} (app : AppF H) (path : String) (h : H) :
    AppF H × Option (AppF H) := app.handle .any path h

def AppF.get {H : Type} (app : AppF H) (path : String) (h : H) :
    AppF H × Option (AppF H) := app.handle .get path h

def AppF.post {H : Type} (app : AppF H) (path : String) (h : H) :
    AppF H × Option (AppF H) := app.handle .post path h

def AppF.put {H : Type} (app : AppF H) (path : String) (h : H) :
    AppF H × Option (AppF H) := app.handle .put path h

def AppF.patch {H : Type} (app : AppF H) (path : String) (h : H) :
    AppF H × Option (AppF H) := app.handle .patch path h

def AppF.delete {H : Type} (app : AppF H) (path : String) (h : H) :
    AppF H × Option (AppF H) := app.handle .del path h

def AppF.options {H : Type} (app : AppF H) (path : String) (h : H) :
    AppF H × Option (AppF H) := app.handle .options path h

def AppF.connect {H : Type} (app : AppF H) (path : String) (h : H) :
    AppF H × Option (AppF H) := app.handle .connect path h

def AppF.head {H : Type} (app : AppF H) (path : String) (h : H) :
    AppF H × Option (AppF H) := app.handle .head path h

/-- The minimal variant's `App`. -/
structure AppM (H : Type) where
  routes : List (Method × String × H)

/-- Minimal `App.handle` (part_001 lines 362-443): registers, no return
statement. -/
def AppM.handle {H : Type} (app : AppM H) (m : Method) (path : String)
    (h : H) : AppM H :=
  { routes := app.routes ++ [(m, path, h)] }

def AppM.use {H : Type} (app : AppM H) (path : String) (h : H) :
    AppM H × Option (AppM H) := (app.handle .any path h, none)

def AppM.get {H : Type} (app : AppM H) (path : String) (h : H) :
    AppM H × Option (AppM H) := (app.handle .get path h, none)

def AppM.post {H : Type} (app : AppM H) (path : String) (h : H) :
    AppM H × Option (AppM H) := (app.handle .post path h, none)

def AppM.put {H : Type} (app : AppM H) (path : String) (h : H) :
    AppM H × Option (AppM H) := (app.handle .put path h, none)

def AppM.patch {H : Type} (app : AppM H) (path : String) (h : H) :
    AppM H × Option (AppM H) := (app.handle .patch path h, none)

def AppM.delete {H : Type} (app : AppM H) (path : String) (h : H) :
    AppM H × Option (AppM H) := (app.handle .del path h, none)

def AppM.options {H : Type} (app : AppM H) (path : String) (h : H) :
    AppM H × Option (AppM H) := (app.handle .options path h, none)

def AppM.connect {H : Type} (app : AppM H) (path : String) (h : H) :
    AppM H × Option (AppM H) := (app.handle .connect path h, none)

def AppM.head {H : Type} (app : AppM H) (path : String) (h : H) :
    AppM H × Option (AppM H) := (app.handle .head path h, none)

/-! ## Helper lemmas: the write-count invariant of the response guard -/

/-- Guard-state invariant: at most one grouped write has happened, and none
before `done` was set. -/
def GuardInv (s : ResState) : Prop :=
  s.writes.length ≤ 1 ∧ (s.done = false → s.writes = [])

theorem guardInv_init : GuardInv ResState.init := by
  constructor <;> simp [ResState.init]

theorem guardInv_send (s : ResState) (v : JsVal) (h : GuardInv s) :
    GuardInv (s.send v) := by
  obtain ⟨h1, h2⟩ := h
  by_cases hA : s.aborted
  · have hb : s.send v = s := by simp [ResState.send, hA]
    rw [hb]; exact ⟨h1, h2⟩
  by_cases hD : s.done
  · have hb : s.send v = s := by simp [ResState.send, hA, hD]
    rw [hb]; exact ⟨h1, h2⟩
  by_cases hN : s.calledNext
  · have hb : s.send v = s := by simp [ResState.send, hA, hD, hN]
    rw [hb]; exact ⟨h1, h2⟩
  have hw : s.writes = [] := h2 (by simpa using hD)
  cases v with
  | obj r =>
    cases r <;> simp [ResState.send, hA, hD, hN, GuardInv, hw, jsonStringify]
  | _ => simp [ResState.send, hA, hD, hN, GuardInv, hw, jsonStringify]

theorem guardInv_sendMin (s : ResState) (v : JsVal) (h : GuardInv s) :
    GuardInv (s.sendMin v).1 := by
  obtain ⟨h1, h2⟩ := h
  by_cases hA : s.aborted
  · have hb : (s.sendMin v).1 = s := by simp [ResState.sendMin, hA]
    rw [hb]; exact ⟨h1, h2⟩
  by_cases hD : s.done
  · have hb : (s.sendMin v).1 = s := by simp [ResState.sendMin, hA, hD]
    rw [hb]; exact ⟨h1, h2⟩
  by_cases hN : s.calledNext
  · have hb : (s.sendMin v).1 = s := by simp [ResState.sendMin, hA, hD, hN]
    rw [hb]; exact ⟨h1, h2⟩
  have hw : s.writes = [] := h2 (by simpa using hD)
  cases v with
  | obj r =>
    cases r <;> simp [ResState.sendMin, hA, hD, hN, GuardInv, hw, jsonStringify]
  | _ => simp [ResState.sendMin, hA, hD, hN, GuardInv, hw, jsonStringify]

theorem guardInv_errorPath (s : ResState) (e : JsError) (h : GuardInv s) :
    GuardInv (s.errorPath e) := by
  obtain ⟨h1, h2⟩ := h
  by_cases hA : s.aborted
  · have hb : s.errorPath e = s := by simp [ResState.errorPath, hA]
    rw [hb]; exact ⟨h1, h2⟩
  by_cases hD : s.done
  · have hb : s.errorPath e = s := by simp [ResState.errorPath, hA, hD]
    rw [hb]; exact ⟨h1, h2⟩
  by_cases hN : s.calledNext
  · have hb : s.errorPath e = s := by simp [ResState.errorPath, hA, hD, hN]
    rw [hb]; exact ⟨h1, h2⟩
  have hw : s.writes = [] := h2 (by simpa using hD)
  simp [ResState.errorPath, hA, hD, hN, GuardInv, hw]

theorem guardInv_errorPathMin (s : ResState) (e : JsError) (h : GuardInv s) :
    GuardInv (s.errorPathMin e) := by
  obtain ⟨h1, h2⟩ := h
  by_cases hA : s.aborted
  · have hb : s.errorPathMin e = s := by simp [ResState.errorPathMin, hA]
    rw [hb]; exact ⟨h1, h2⟩
  by_cases hD : s.done
  · have hb : s.errorPathMin e = s := by simp [ResState.errorPathMin, hA, hD]
    rw [hb]; exact ⟨h1, h2⟩
  by_cases hN : s.calledNext
  · have hb : s.errorPathMin e = s := by simp [ResState.errorPathMin, hA, hD, hN]
    rw [hb]; exact ⟨h1, h2⟩
  have hw : s.writes = [] := h2 (by simpa using hD)
  simp [ResState.errorPathMin, hA, hD, hN, GuardInv, hw]

theorem guardInv_foldl_full (acts : List HAction) :
    ∀ s : ResState, GuardInv s → GuardInv (acts.foldl stepFull s) := by
  induction acts with
  | nil => intro s h; simpa using h
  | cons a as ih =>
    intro s h
    simp only [List.foldl_cons]
    refine ih _ ?_
    cases a with
    | send v => exact guardInv_send s v h
    | callNext => exact And.intro h.1 h.2
    | abortFires => exact And.intro h.1 h.2

theorem guardInv_foldl_min (acts : List HAction) :
    ∀ s : ResState, GuardInv s → GuardInv (acts.foldl stepMin s) := by
  induction acts with
  | nil => intro s h; simpa using h
  | cons a as ih =>
    intro s h
    simp only [List.foldl_cons]
    refine ih _ ?_
    cases a with
    | send v => exact guardInv_sendMin s v h
    | callNext => exact And.intro h.1 h.2
    | abortFires => exact And.intro h.1 h.2

theorem guardInv_runFullTail (s : ResState) (out : HOutcome)
    (h : GuardInv s) : GuardInv (runFullTail s out) := by
  cases out with
  | throw e => exact guardInv_errorPath s e h
  | ret v =>
    by_cases hcs : s.calledSend
    · simpa [runFullTail, hcs] using h
    by_cases hf : v.falsy
    · simpa [runFullTail, hcs, hf] using guardInv_errorPath s _ h
    cases v with
    | err e => simpa [runFullTail, hcs, hf] using guardInv_errorPath s e h
    | _ => simpa [runFullTail, hcs, hf] using guardInv_send s _ h

theorem guardInv_sendThenCatchMin (s : ResState) (v : JsVal)
    (h : GuardInv s) :
    GuardInv (match s.sendMin v with
              | (s2, true) => s2.errorPathMin stringifyThrowErr
              | (s2, false) => s2) := by
  rcases hsm : s.sendMin v with ⟨s2, b⟩
  have h2 := guardInv_sendMin s v h
  rw [hsm] at h2
  cases b
  · simpa using h2
  · simpa using guardInv_errorPathMin s2 stringifyThrowErr h2

theorem guardInv_runMinTail (s : ResState) (out : HOutcome)
    (h : GuardInv s) : GuardInv (runMinTail s out) := by
  cases out with
  | throw e => exact guardInv_errorPathMin s e h
  | ret v =>
    by_cases hcs : s.calledSend
    · simpa [runMinTail, hcs] using h
    by_cases hf : v.falsy
    · simpa [runMinTail, hcs, hf] using h
    cases v with
    | err e => simpa [runMinTail, hcs, hf] using guardInv_errorPathMin s e h
    | _ => simpa [runMinTail, hcs, hf] using guardInv_sendThenCatchMin s _ h

/-! ## Claims -/

/-- C1: Response-guard single-write invariant, in both variants.  For every
request — every sequence of handler actions (explicit `send` calls, `next()`,
abort firing at suspension points) and every settlement of the handler's
promise — at most one grouped terminal write reaches the wire; a `send` or
error-path call on a guard whose `done` flag is set is a no-op; and the
`aborted` and `calledNext` flags short-circuit every write attempt, which then
changes nothing. -/
theorem response_guard_single_write :
    (∀ (acts : List HAction) (out : HOutcome),
       (runFull acts out).writes.length ≤ 1) ∧
    (∀ (acts : List HAction) (out : HOutcome),
       (runMin acts out).writes.length ≤ 1) ∧
    (∀ (s : ResState) (v : JsVal), s.done = true → s.send v = s) ∧
    (∀ (s : ResState) (e : JsError), s.done = true → s.errorPath e = s) ∧
    (∀ (s : ResState) (v : JsVal), s.done = true → s.sendMin v = (s, false)) ∧
    (∀ (s : ResState) (e : JsError), s.done = true → s.errorPathMin e = s) ∧
    (∀ (s : ResState) (v : JsVal), s.aborted = true ∨ s.calledNext = true →
       s.send v = s ∧ s.sendMin v = (s, false)) ∧
    (∀ (s : ResState) (e : JsError), s.aborted = true ∨ s.calledNext = true →
       s.errorPath e = s ∧ s.errorPathMin e = s) := by
  refine ⟨?_, ?_, ?_, ?_, ?_, ?_, ?_, ?_⟩
  · intro acts out
    exact (guardInv_runFullTail _ out
      (guardInv_foldl_full acts ResState.init guardInv_init)).1
  · intro acts out
    exact (guardInv_runMinTail _ out
      (guardInv_foldl_min acts ResState.init guardInv_init)).1
  · intro s v h; simp [ResState.send, h]
  · intro s e h; simp [ResState.errorPath, h]
  · intro s v h; simp [ResState.sendMin, h]
  · intro s e h; simp [ResState.errorPathMin, h]
  · intro s v h
    rcases h with h | h <;>
      exact ⟨by simp [ResState.send, h], by simp [ResState.sendMin, h]⟩
  · intro s e h
    rcases h with h | h <;>
      exact ⟨by simp [ResState.errorPath, h], by simp [ResState.errorPathMin, h]⟩

theorem response_guard_single_write_witness :
    (runFull [.send (.str "a"), .send (.str "b")]
       (.ret (.str "c"))).writes.length ≤ 1 ∧
    ResState.send ⟨false, true, false, true, []⟩ (.str "x") =
      ⟨false, true, false, true, []⟩ ∧
    ResState.errorPath ⟨true, false, false, false, []⟩ (.http 500 "x") =
      ⟨true, false, false, false, []⟩ :=
  ⟨response_guard_single_write.1 [.send (.str "a"), .send (.str "b")]
     (.ret (.str "c")),
   response_guard_single_write.2.2.1 ⟨false, true, false, true, []⟩
     (.str "x") rfl,
   (response_guard_single_write.2.2.2.2.2.2.2 ⟨true, false, false, false, []⟩
     (.http 500 "x") (Or.inl rfl)).1⟩

/-- C5: a handler throw of `HTTPError(c, m)` on a clean guard produces a
single write whose status line and body are both the text
`toString c ++ " " ++ m`. -/
theorem http_error_rendering (s : ResState) (hA : s.aborted = false)
    (hD : s.done = false) (hN : s.calledNext = false) (c : Int) (m : String) :
    runFullFrom s [] (.throw (.http c m)) =
      { s with done := true,
               writes := s.writes ++
                 [⟨toString c ++ " " ++ m, none,
                   some (toString c ++ " " ++ m)⟩] } := by
  simp [runFullFrom, runFullTail, ResState.errorPath, hA, hD, hN,
    errorMessageFull]

theorem http_error_rendering_witness :
    runFullFrom ResState.init [] (.throw (.http 404 "Not Found")) =
      ⟨false, true, false, false,
       [⟨"404 Not Found", none, some "404 Not Found"⟩]⟩ :=
  http_error_rendering ResState.init rfl rfl rfl 404 "Not Found"

/-- C7: explicit `send` is idempotent in both variants: a second call with
the same value leaves the guard state (flags and bytes written) unchanged. -/
theorem send_idempotent (s : ResState) (v : JsVal) :
    (s.send v).send v = s.send v ∧
    ((s.sendMin v).1.sendMin v).1 = (s.sendMin v).1 := by
  constructor
  · by_cases hA : s.aborted
    · simp [ResState.send, hA]
    by_cases hD : s.done
    · simp [ResState.send, hA, hD]
    by_cases hN : s.calledNext
    · simp [ResState.send, hA, hD, hN]
    cases v with
    | obj r => cases r <;> simp [ResState.send, hA, hD, hN, jsonStringify]
    | _ => simp [ResState.send, hA, hD, hN, jsonStringify]
  · by_cases hA : s.aborted
    · simp [ResState.sendMin, hA]
    by_cases hD : s.done
    · simp [ResState.sendMin, hA, hD]
    by_cases hN : s.calledNext
    · simp [ResState.sendMin, hA, hD, hN]
    cases v with
    | obj r => cases r <;> simp [ResState.sendMin, hA, hD, hN, jsonStringify]
    | _ => simp [ResState.sendMin, hA, hD, hN, jsonStringify]

/-- C8: a handler that resolves empty (`undefined`) on a clean guard with no
explicit send: the fuller variant replies through its error path with the
`HTTPError(204, 'No Content')` wire (status line and body both
`"204 No Content"`); the minimal variant terminates with no state change and
writes nothing. -/
theorem empty_return_per_variant (s : ResState) (hA : s.aborted = false)
    (hD : s.done = false) (hN : s.calledNext = false)
    (hS : s.calledSend = false) :
    runFullFrom s [] (.ret .undef) =
      { s with done := true,
               writes := s.writes ++
                 [⟨"204 No Content", none, some "204 No Content"⟩] } ∧
    runMinFrom s [] (.ret .undef) = s := by
  constructor
  · simp [runFullFrom, runFullTail, ResState.errorPath, hA, hD, hN, hS,
      JsVal.falsy, errorMessageFull]
    try rfl
  · simp [runMinFrom, runMinTail, hS, JsVal.falsy]

theorem empty_return_per_variant_witness :
    runFullFrom ResState.init [] (.ret .undef) =
      ⟨false, true, false, false,
       [⟨"204 No Content", none, some "204 No Content"⟩]⟩ ∧
    runMinFrom ResState.init [] (.ret .undef) = ResState.init :=
  empty_return_per_variant ResState.init rfl rfl rfl rfl

/-- C10: the pipeline's empty test is JavaScript falsiness, so a handler
resolving with `""`, `0`, `false` or `null` is handled exactly like one
resolving with `undefined`: the fuller variant writes the 204 wire, the
minimal variant writes nothing, and in particular no `200 OK` write is ever
produced by returning a falsy value. -/
theorem falsy_return_treated_as_undefined (v : JsVal)
    (hv : v.falsy = true) :
    runFull [] (.ret v) = runFull [] (.ret .undef) ∧
    runMin [] (.ret v) = runMin [] (.ret .undef) ∧
    (runFull [] (.ret v)).writes =
      [⟨"204 No Content", none, some "204 No Content"⟩] ∧
    (runMin [] (.ret v)).writes = [] ∧
    ∀ w ∈ (runFull [] (.ret v)).writes, w.status ≠ "200 OK" := by
  cases v with
  | undef => exact ⟨rfl, rfl, rfl, rfl, by decide⟩
  | null => exact ⟨rfl, rfl, rfl, rfl, by decide⟩
  | bool b =>
    cases b
    · exact ⟨rfl, rfl, rfl, rfl, by decide⟩
    · exact absurd hv (by decide)
  | num n =>
    have hn : n = 0 := by simpa [JsVal.falsy] using hv
    subst hn
    exact ⟨rfl, rfl, rfl, rfl, by decide⟩
  | str s =>
    have hs : s = "" := by simpa [JsVal.falsy] using hv
    subst hs
    exact ⟨rfl, rfl, rfl, rfl, by decide⟩
  | obj r => exact absurd hv (by simp [JsVal.falsy])
  | err e => exact absurd hv (by simp [JsVal.falsy])

theorem falsy_return_treated_as_undefined_witness :
    runFull [] (.ret (.str "")) = runFull [] (.ret .undef) ∧
    runMin [] (.ret (.str "")) = runMin [] (.ret .undef) ∧
    (runFull [] (.ret (.str ""))).writes =
      [⟨"204 No Content", none, some "204 No Content"⟩] ∧
    (runMin [] (.ret (.str ""))).writes = [] ∧
    ∀ w ∈ (runFull [] (.ret (.str ""))).writes, w.status ≠ "200 OK" :=
  falsy_return_treated_as_undefined (.str "") rfl

/-- Spec formulation: the generic-error status of the fuller variant, derived
from the optional `status` field, else the optional `code` field, else 500. -/
def specGenericStatusFull (st cd : Option Int) : Int :=
  st.getD (cd.getD 500)

/-- Spec formulation: the generic-error status of the minimal variant, which
reads only the optional `status` field, else 500. -/
def specGenericStatusMin (st : Option Int) : Int :=
  st.getD 500

/-- Spec formulation: the generic-error reason — `reason` if truthy, else
`message` if truthy, else `"Internal Server Error"` exactly when the resolved
status is 500 and empty otherwise. -/
def specGenericReason (status : Int) (rs : Option String) (m : String) :
    String :=
  jsOrElse rs
    (if m = "" then (if status = 500 then "Internal Server Error" else "")
     else m)

/-- Spec formulation: the wire text `"<status> <reason>"`, just `"<status>"`
when the reason is empty. -/
def specWireText (status : Int) (reason : String) : String :=
  toString status ++ (if reason = "" then "" else " " ++ reason)

/-- C4 counterexample: the claim says the status is derived from the error's
optional `status` or `code` field in the error path of both cited variants,
but the minimal variant reads only `status`: an error with `code = 404` and
message `"m"` is rendered `"500 m"`, not `"404 m"`. -/
theorem generic_error_min_ignores_code_counterexample :
    (runMin [] (.throw (.generic none (some 404) none "m"))).writes =
      [⟨"500 m", none, some "500 m"⟩] ∧
    (runMin [] (.throw (.generic none (some 404) none "m"))).writes ≠
      [⟨"404 m", none, some "404 m"⟩] := by
  exact ⟨rfl, by decide⟩

/-- C4 (amended): generic (non-`HTTPError`) error rendering on a clean guard.
The fuller variant derives the status from `status`, else `code`, else 500;
the minimal variant from `status` alone, else 500 (its error path never reads
`code`).  The reason is `reason || message`, defaulting to
`"Internal Server Error"` exactly when the resolved status is 500 and to the
empty reason otherwise; the single write uses `"<status> <reason>"` (just
`"<status>"` on an empty reason) as both status line and body; and a returned
error is rendered like a thrown one. -/
theorem generic_error_rendering_amended (s : ResState)
    (hA : s.aborted = false) (hD : s.done = false) (hN : s.calledNext = false)
    (hS : s.calledSend = false) (st cd : Option Int) (rs : Option String)
    (m : String) :
    (runFullFrom s [] (.throw (.generic st cd rs m))).writes =
      s.writes ++
        [⟨specWireText (specGenericStatusFull st cd)
            (specGenericReason (specGenericStatusFull st cd) rs m), none,
          some (specWireText (specGenericStatusFull st cd)
            (specGenericReason (specGenericStatusFull st cd) rs m))⟩] ∧
    runFullFrom s [] (.ret (.err (.generic st cd rs m))) =
      runFullFrom s [] (.throw (.generic st cd rs m)) ∧
    (runMinFrom s [] (.throw (.generic st cd rs m))).writes =
      s.writes ++
        [⟨specWireText (specGenericStatusMin st)
            (specGenericReason (specGenericStatusMin st) rs m), none,
          some (specWireText (specGenericStatusMin st)
            (specGenericReason (specGenericStatusMin st) rs m))⟩] := by
  refine ⟨?_, ?_, ?_⟩
  · simp [runFullFrom, runFullTail, ResState.errorPath, hA, hD, hN,
      errorMessageFull, specWireText, specGenericStatusFull,
      specGenericReason]
  · simp [runFullFrom, runFullTail, hS, JsVal.falsy]
  · simp [runMinFrom, runMinTail, ResState.errorPathMin, hA, hD, hN,
      errorMessageMin, specWireText, specGenericStatusMin, specGenericReason]

theorem generic_error_rendering_amended_witness :
    (runFullFrom ResState.init []
       (.throw (.generic (some 401) none none "TEST_ERROR"))).writes =
      ResState.init.writes ++
        [⟨specWireText (specGenericStatusFull (some 401) none)
            (specGenericReason (specGenericStatusFull (some 401) none) none
              "TEST_ERROR"), none,
          some (specWireText (specGenericStatusFull (some 401) none)
            (specGenericReason (specGenericStatusFull (some 401) none) none
              "TEST_ERROR"))⟩] :=
  (generic_error_rendering_amended ResState.init rfl rfl rfl rfl (some 401)
    none none "TEST_ERROR").1

/-- C6 counterexample: the claim says a number value is written as-is with
status `200 OK` in both variants, but the minimal variant's `send` has no
number branch: a handler resolving with `5` (or sending it) writes nothing at
all there. -/
theorem number_send_min_counterexample :
    (runMin [] (.ret (.num 5))).writes = [] ∧
    ((ResState.init.sendMin (.num 5)).1).writes = [] :=
  ⟨rfl, rfl⟩

/-- C6 (amended): on a clean guard, a handler that returns a nonempty string
`S`, or calls `response.send` with any string `S`, produces status `200 OK`
with body exactly `S` in both variants (an empty returned string instead
takes the empty-body route, claim C8/C10).  A nonzero returned number, or any
number passed to `send`, is written as its decimal text with status `200 OK`
in the fuller variant only; the minimal variant's `send` ignores numbers, so
such a request terminates with no write. -/
theorem string_number_send_amended (s : ResState) (hA : s.aborted = false)
    (hD : s.done = false) (hN : s.calledNext = false)
    (hS : s.calledSend = false) :
    (∀ S : String, S ≠ "" →
      (runFullFrom s [] (.ret (.str S))).writes =
        s.writes ++ [⟨"200 OK", none, some S⟩] ∧
      (runMinFrom s [] (.ret (.str S))).writes =
        s.writes ++ [⟨"200 OK", none, some S⟩]) ∧
    (∀ S : String,
      (s.send (.str S)).writes = s.writes ++ [⟨"200 OK", none, some S⟩] ∧
      ((s.sendMin (.str S)).1).writes =
        s.writes ++ [⟨"200 OK", none, some S⟩]) ∧
    (∀ n : Int, n ≠ 0 →
      (runFullFrom s [] (.ret (.num n))).writes =
        s.writes ++ [⟨"200 OK", none, some (toString n)⟩]) ∧
    (∀ n : Int,
      (s.send (.num n)).writes =
        s.writes ++ [⟨"200 OK", none, some (toString n)⟩]) ∧
    (∀ n : Int, s.sendMin (.num n) = ({ s with calledSend := true }, false)) ∧
    (∀ n : Int, n ≠ 0 →
      runMinFrom s [] (.ret (.num n)) = { s with calledSend := true }) := by
  refine ⟨?_, ?_, ?_, ?_, ?_, ?_⟩
  · intro S hSne
    have hf : ((JsVal.str S).falsy) = false := by
      simp [JsVal.falsy, hSne]
    constructor
    · simp [runFullFrom, runFullTail, ResState.send, hA, hD, hN, hS, hf]
    · simp [runMinFrom, runMinTail, ResState.sendMin, hA, hD, hN, hS, hf]
  · intro S
    constructor
    · simp [ResState.send, hA, hD, hN]
    · simp [ResState.sendMin, hA, hD, hN]
  · intro n hn
    have hf : ((JsVal.num n).falsy) = false := by
      simp [JsVal.falsy, hn]
    simp [runFullFrom, runFullTail, ResState.send, hA, hD, hN, hS, hf]
  · intro n
    simp [ResState.send, hA, hD, hN]
  · intro n
    simp [ResState.sendMin, hA, hD, hN]
  · intro n hn
    have hf : ((JsVal.num n).falsy) = false := by
      simp [JsVal.falsy, hn]
    simp [runMinFrom, runMinTail, ResState.sendMin, hA, hD, hN, hS, hf]

theorem string_number_send_amended_witness :
    (runFullFrom ResState.init [] (.ret (.str "Hello World!"))).writes =
      ResState.init.writes ++ [⟨"200 OK", none, some "Hello World!"⟩] ∧
    (runFullFrom ResState.init [] (.ret (.num 5))).writes =
      ResState.init.writes ++ [⟨"200 OK", none, some (toString (5 : Int))⟩] ∧
    runMinFrom ResState.init [] (.ret (.num 5)) =
      { ResState.init with calledSend := true } :=
  ⟨((string_number_send_amended ResState.init rfl rfl rfl rfl).1
      "Hello World!" (by decide)).1,
   (string_number_send_amended ResState.init rfl rfl rfl rfl).2.2.1 5
     (by decide),
   (string_number_send_amended ResState.init rfl rfl rfl rfl).2.2.2.2.2 5
     (by decide)⟩

/-- C9 counterexample: the claim says every registration method returns the
App instance in both variants, but the minimal variant's methods have no
`return` statement: `get` evaluates to `undefined` (`none`), not the
instance. -/
theorem registration_min_returns_undefined_counterexample :
    (AppM.get (⟨[]⟩ : AppM Unit) "/" ()).2 = none :=
  rfl

/-- C9 (amended): in the fuller variant every registration method (`use` and
the eight verb methods) registers the route and returns the App instance, so
calls chain; in the minimal variant each registers the route but returns
`undefined`, so they do not chain. -/
theorem registration_chainable_amended :
    (∀ (H : Type) (app : AppF H) (p : String) (h : H),
      (AppF.use app p h).2 = some (AppF.use app p h).1 ∧
      (AppF.get app p h).2 = some (AppF.get app p h).1 ∧
      (AppF.post app p h).2 = some (AppF.post app p h).1 ∧
      (AppF.put app p h).2 = some (AppF.put app p h).1 ∧
      (AppF.patch app p h).2 = some (AppF.patch app p h).1 ∧
      (AppF.delete app p h).2 = some (AppF.delete app p h).1 ∧
      (AppF.options app p h).2 = some (AppF.options app p h).1 ∧
      (AppF.connect app p h).2 = some (AppF.connect app p h).1 ∧
      (AppF.head app p h).2 = some (AppF.head app p h).1 ∧
      (AppF.get app p h).1.routes = app.routes ++ [(Method.get, p, h)]) ∧
    (∀ (H : Type) (app : AppM H) (p : String) (h : H),
      (AppM.use app p h).2 = none ∧
      (AppM.get app p h).2 = none ∧
      (AppM.post app p h).2 = none ∧
      (AppM.put app p h).2 = none ∧
      (AppM.patch app p h).2 = none ∧
      (AppM.delete app p h).2 = none ∧
      (AppM.options app p h).2 = none ∧
      (AppM.connect app p h).2 = none ∧
      (AppM.head app p h).2 = none ∧
      (AppM.get app p h).1.routes = app.routes ++ [(Method.get, p, h)]) := by
  constructor <;>
    exact fun H app p h =>
      ⟨rfl, rfl, rfl, rfl, rfl, rfl, rfl, rfl, rfl, rfl⟩

/-- C2 counterexample: the claim requires any `text/*` subtype other than
`plain` and `html` to fail with the unsupported-content-type error, never to
be decoded by an `application/*` rule — but the missing `break` lets
`text/json` fall through into the `application` cases, and the buffer `123`
is decoded as JSON. -/
theorem decode_text_json_counterexample :
    App.parse jsonParseModel qsModel (some ⟨"text", "json"⟩) "123" =
      .ok (some (.json (.num 123))) ∧
    isError
      (App.parse jsonParseModel qsModel (some ⟨"text", "json"⟩) "123") =
      false :=
  ⟨rfl, rfl⟩

/-- C2 (amended): the decoder's decision table as the code implements it.
A null classification fails with the invalid-content-type error;
`text/plain` and `text/html` decode the buffer as text; because the outer
type switch falls through, the `application` rules apply to both `text/*`
and `application/*`: subtype `json` runs the JSON parser (a parse failure is
caught and yields `undefined`), subtype `x-www-form-urlencoded` runs the
form parser; every other classification — `application/javascript`,
`application/xml`, `multipart/*`, remaining `text/*` subtypes, and any other
type — fails with the error naming `type/subtype`. -/
theorem decode_decision_table_amended {J F : Type}
    (jp : String → Except String J) (qp : String → F) (ct : ContentType)
    (buf : String) :
    App.parse jp qp none buf = .error "Invalid content-type \"null\"." ∧
    (ct.type = "text" → ct.subtype = "plain" ∨ ct.subtype = "html" →
      App.parse jp qp (some ct) buf = .ok (some (.text buf))) ∧
    (ct.type = "text" ∨ ct.type = "application" → ct.subtype = "json" →
      App.parse jp qp (some ct) buf =
        match jp buf with
        | .ok v => .ok (some (.json v))
        | .error _ => .ok none) ∧
    (ct.type = "text" ∨ ct.type = "application" →
      ct.subtype = "x-www-form-urlencoded" →
      App.parse jp qp (some ct) buf = .ok (some (.form (qp buf)))) ∧
    (ct.type = "application" → ct.subtype ≠ "json" →
      ct.subtype ≠ "x-www-form-urlencoded" →
      App.parse jp qp (some ct) buf =
        .error
          ("Invalid content-type \"" ++ ct.type ++ "/" ++ ct.subtype ++
            "\".")) ∧
    (ct.type = "text" → ct.subtype ≠ "plain" → ct.subtype ≠ "html" →
      ct.subtype ≠ "json" → ct.subtype ≠ "x-www-form-urlencoded" →
      App.parse jp qp (some ct) buf =
        .error
          ("Invalid content-type \"" ++ ct.type ++ "/" ++ ct.subtype ++
            "\".")) ∧
    (ct.type ≠ "text" → ct.type ≠ "application" →
      App.parse jp qp (some ct) buf =
        .error
          ("Invalid content-type \"" ++ ct.type ++ "/" ++ ct.subtype ++
            "\".")) := by
  obtain ⟨t, st⟩ := ct
  refine ⟨rfl, ?_, ?_, ?_, ?_, ?_, ?_⟩
  · rintro rfl (rfl | rfl) <;> simp [App.parse]
  · rintro (rfl | rfl) rfl <;> simp [App.parse]
  · rintro (rfl | rfl) rfl <;> simp [App.parse]
  · rintro rfl h1 h2
    simp only [App.parse]
    simp [h1, h2]
  · rintro rfl h1 h2 h3 h4
    simp only [App.parse]
    simp [h1, h2, h3, h4]
  · intro h1 h2
    simp only [App.parse]
    simp [h1, h2]

theorem decode_decision_table_amended_witness :
    App.parse jsonParseModel qsModel (some ⟨"text", "plain"⟩) "hi" =
      .ok (some (.text "hi")) ∧
    App.parse jsonParseModel qsModel (some ⟨"application", "json"⟩) "123" =
      .ok (some (.json (.num 123))) ∧
    App.parse jsonParseModel qsModel
      (some ⟨"application", "x-www-form-urlencoded"⟩) "a=1&b" =
      .ok (some (.form (qsModel "a=1&b"))) ∧
    App.parse jsonParseModel qsModel (some ⟨"application", "xml"⟩) "x" =
      .error "Invalid content-type \"application/xml\"." ∧
    App.parse jsonParseModel qsModel (some ⟨"multipart", "form-data"⟩) "x" =
      .error "Invalid content-type \"multipart/form-data\"." :=
  ⟨(decode_decision_table_amended jsonParseModel qsModel ⟨"text", "plain"⟩
      "hi").2.1 rfl (Or.inl rfl),
   (decode_decision_table_amended jsonParseModel qsModel
      ⟨"application", "json"⟩ "123").2.2.1 (Or.inr rfl) rfl,
   (decode_decision_table_amended jsonParseModel qsModel
      ⟨"application", "x-www-form-urlencoded"⟩ "a=1&b").2.2.2.1
     (Or.inr rfl) rfl,
   (decode_decision_table_amended jsonParseModel qsModel
      ⟨"application", "xml"⟩ "x").2.2.2.2.1 rfl (by decide) (by decide),
   (decode_decision_table_amended jsonParseModel qsModel
      ⟨"multipart", "form-data"⟩ "x").2.2.2.2.2.2 (by decide) (by decide)⟩

/-- C3 counterexample: the claim says a syntactically invalid JSON body under
`application/json` makes decoding fail with a `DecodeError` that rejects the
`body()` promise — but the decoder catches the parse failure and returns
`undefined`, so decoding succeeds and `body()` resolves with `undefined`:
with the single accumulated chunk `"\x7b"` (invalid JSON), the result is
`.ok none`, not an error. -/
theorem malformed_json_resolves_undefined_counterexample :
    isError (jsonParseModel "\x7b") = true ∧
    App.parse jsonParseModel qsModel (some ⟨"application", "json"⟩) "\x7b" =
      .ok none ∧
    bodyOutcome jsonParseModel qsModel (some ⟨"application", "json"⟩)
      ["\x7b"] = .ok none :=
  ⟨rfl, rfl, rfl⟩

/-- C3 (amended): for every request classified `*/json` (reached by the
`text` fallthrough or as `application/json`) whose accumulated body bytes
make the JSON parser throw, the decoder catches the failure (logging a
warning in development) and returns `undefined`; `body()` therefore resolves
successfully with `undefined` — the failure is neither a rejection of
`body()` nor an automatic HTTP response. -/
theorem malformed_json_swallowed_amended {J F : Type}
    (jp : String → Except String J) (qp : String → F) (ct : ContentType)
    (chunks : List String) (e : String)
    (ht : ct.type = "text" ∨ ct.type = "application")
    (hs : ct.subtype = "json")
    (hfail : jp (String.join chunks) = .error e) :
    bodyOutcome jp qp (some ct) chunks = .ok none := by
  obtain ⟨t, st⟩ := ct
  simp only at ht hs
  subst hs
  rcases ht with rfl | rfl <;> simp [bodyOutcome, App.parse, hfail]

theorem malformed_json_swallowed_amended_witness :
    bodyOutcome jsonParseModel qsModel (some ⟨"application", "json"⟩)
      ["\x7b\x22a\x22"] = .ok none :=
  malformed_json_swallowed_amended jsonParseModel qsModel
    ⟨"application", "json"⟩ ["\x7b\x22a\x22"] "Unexpected token in JSON"
    (Or.inr rfl) rfl rfl

theorem send_idempotent_witness :
    (ResState.init.send (.str "x")).send (.str "x") =
      ResState.init.send (.str "x") ∧
    ((ResState.init.sendMin (.str "x")).1.sendMin (.str "x")).1 =
      (ResState.init.sendMin (.str "x")).1 :=
  send_idempotent ResState.init (.str "x")

theorem registration_chainable_amended_witness :
    (AppF.get (⟨[]⟩ : AppF Unit) "/" ()).2 =
      some (AppF.get (⟨[]⟩ : AppF Unit) "/" ()).1 ∧
    (AppM.use (⟨[]⟩ : AppM Unit) "/" ()).2 = none :=
  ⟨(registration_chainable_amended.1 Unit ⟨[]⟩ "/" ()).2.1,
   (registration_chainable_amended.2 Unit ⟨[]⟩ "/" ()).1⟩

end Pow

